import Mathlib

/-!
# Verification of the overlae hotkey/overlay application

Shallow embedding of `src/app.go` and `src/frontend/src/App.tsx`:
the window-manager collaborator calls, the visibility state machine,
the startup `sync.Once` guard, the hotkey pipeline and the cleanup path.
-/

namespace Overlae

/-- A call on the external window-manager collaborator surface
(the Wails runtime calls used in `src/app.go`). -/
inductive WindowCall where
  | show
  | hide
  | center
  | setAlwaysOnTop (flag : Bool)
  deriving DecidableEq, Repr

/-- Observable window state: whether the window is visible, centered,
and set always-on-top.  `visible` is the spec's `OverlayState.visible`. -/
structure WindowState where
  visible : Bool
  centered : Bool
  alwaysOnTop : Bool
  deriving DecidableEq, Repr

/-- Effect of a single window-manager call on the observable window state. -/
def applyCall (s : WindowState) : WindowCall → WindowState
  | .show => { s with visible := true }
  | .hide => { s with visible := false }
  | .center => { s with centered := true }
  | .setAlwaysOnTop b => { s with alwaysOnTop := b }

/-- Run a trace of window-manager calls from a state. -/
def runCalls (s : WindowState) (cs : List WindowCall) : WindowState :=
  cs.foldl applyCall s

/-- `App.ShowOverlay` (src/app.go lines 67-71): calls
`WindowShow`, `WindowCenter`, `WindowSetAlwaysOnTop(ctx, true)`, in that order. -/
def ShowOverlay : List WindowCall :=
  [.show, .center, .setAlwaysOnTop true]

/-- `App.HideOverlay` (src/app.go lines 73-75): calls `WindowHide`. -/
def HideOverlay : List WindowCall :=
  [.hide]

/-- `App.OnWindowBlur` (src/app.go lines 77-80): calls `a.HideOverlay()`. -/
def OnWindowBlur : List WindowCall :=
  HideOverlay

/-- Frontend `handleEscape` (App.tsx lines 19-23): on a keydown event,
calls `HideOverlay()` exactly when the key is `"Escape"`. -/
def handleEscape (key : String) : List WindowCall :=
  if key = "Escape" then HideOverlay else []

/-- Frontend `EventsOn` subscription (App.tsx lines 10-16): the handler for
the `"show-overlay"` event calls `ShowOverlay()`; no other event is handled. -/
def frontendHandle (ev : String) : List WindowCall :=
  if ev = "show-overlay" then ShowOverlay else []

/-- The hotkey keydown goroutine body (src/app.go lines 51-56): for each
keydown notification it emits the `"show-overlay"` event via `EventsEmit`. -/
def keydownGoroutine (keydowns : List Unit) : List String :=
  keydowns.map (fun _ => "show-overlay")

/-- `onHotkey`: the end-to-end effect of one hotkey key-down notification —
the keydown goroutine emits `"show-overlay"`, and the frontend handler for
that event runs (App.tsx lines 10-16). -/
def onHotkey : List WindowCall :=
  frontendHandle "show-overlay"

/-- The `show()` invocation cycles observed for a list of hotkey keydown
notifications: each emitted event is handled by the frontend handler. -/
def showCyclesFromKeydowns (keydowns : List Unit) : List (List WindowCall) :=
  (keydownGoroutine keydowns).map frontendHandle

/-- All send statements on the package-level `hotkeyEvents` channel in
`src/app.go`: the file contains none, so the list of values ever sent is
empty in every execution. -/
def hotkeyEventsSends : List Unit :=
  []

/-- The event-handler goroutine (src/app.go lines 59-63): for each value
received from `hotkeyEvents` it calls `a.ShowOverlay()`; the result lists
the `ShowOverlay` invocations it performs. -/
def eventHandlerGoroutine (received : List Unit) : List (List WindowCall) :=
  received.map (fun _ => ShowOverlay)

/-- The capacity of the `hotkeyEvents` channel
(`make(chan struct\x7b\x7d, 1)`, src/app.go line 14). -/
def hotkeyEventsCapacity : Nat :=
  1

/-- Result of `hk.Register()` in `startup`. -/
inductive RegResult where
  | ok
  | hotkeyUnavailable
  deriving DecidableEq, Repr

/-- Process-level effects of `startup` relevant to the once-guard:
whether `hotkeyInitOnce` has fired, how many `Register` calls were made,
how many background goroutines were started, and whether a registered
handle is retained in `a.hk`. -/
structure ProcState where
  onceDone : Bool
  registerCalls : Nat
  goroutines : Nat
  hkRetained : Bool
  deriving DecidableEq, Repr

/-- The process state at program start: the once-guard has not fired,
nothing registered, no goroutines, `a.hk == nil`. -/
def initProcState : ProcState :=
  { onceDone := false, registerCalls := 0, goroutines := 0, hkRetained := false }

/-- `App.startup` (src/app.go lines 35-64): `hotkeyInitOnce.Do` runs its
closure only if the once-guard has not fired.  The closure attempts one
`Register`; on failure it returns early (no handle retained, no goroutines);
on success it retains the handle and starts the two goroutines. -/
def startup (reg : RegResult) (st : ProcState) : ProcState :=
  if st.onceDone then st
  else
    match reg with
    | .hotkeyUnavailable =>
        { onceDone := true, registerCalls := st.registerCalls + 1,
          goroutines := st.goroutines, hkRetained := st.hkRetained }
    | .ok =>
        { onceDone := true, registerCalls := st.registerCalls + 1,
          goroutines := st.goroutines + 2, hkRetained := true }

/-- Run a sequence of `startup` calls (one `RegResult` per call). -/
def runStartups (regs : List RegResult) (st : ProcState) : ProcState :=
  regs.foldl (fun s r => startup r s) st

/-- Result of `hk.Unregister()` in `Cleanup`. -/
inductive UnregResult where
  | ok
  | err (msg : String)
  deriving DecidableEq, Repr

/-- `App.Cleanup` (src/app.go lines 83-88): if `a.hk != nil` it calls
`Unregister` once and discards its error; it always returns `false`
(meaning: allow the app to close).  Result: (returned value, number of
`Unregister` calls performed). -/
def Cleanup (hkRetained : Bool) (unreg : UnregResult) : Bool × Nat :=
  match hkRetained, unreg with
  | false, _ => (false, 0)
  | true, _ => (false, 1)

/-- Modelled from the spec: the external Hotkey Listener's keydown sequence
is not part of src/ (it lives in the `golang.design/x/hotkey` dependency).
Per §4.1, "`unregister()` releases the OS-level binding and terminates the
sequence": the notifications actually delivered to the consumer are exactly
those produced before the `unregister()` call; presses after it
(`post`) are never delivered because the sequence is closed. -/
def deliveredNotifications (pre : List Unit) (_post : List Unit) : List Unit :=
  pre

/-- The consumer loop `for range hk.Keydown()` (src/app.go lines 51-56)
over a closed, finite sequence: it processes each delivered notification
(emitting `"show-overlay"`) and then terminates, returning the finite list
of its emissions. -/
def consumerEmits (delivered : List Unit) : List String :=
  keydownGoroutine delivered

/-- Operations on the Visibility Controller, for reasoning about
sequences of `show()`/`hide()` calls. -/
inductive Op where
  | show
  | hide
  deriving DecidableEq, Repr

/-- Run one Visibility Controller operation. -/
def runOp (s : WindowState) : Op → WindowState
  | .show => runCalls s ShowOverlay
  | .hide => runCalls s HideOverlay

/-- Run a sequence of Visibility Controller operations. -/
def runOps (s : WindowState) (ops : List Op) : WindowState :=
  ops.foldl runOp s

/-- The `visible` value implied by a single operation, per the spec:
`show()` implies `true`, `hide()` implies `false`. -/
def impliedVisible : Op → Bool
  | .show => true
  | .hide => false

/-! ## Helper lemmas -/

/-- Running an operation sequence extended by one operation runs the
operation on the result of the prefix. -/
theorem runOps_append_single (s : WindowState) (ops : List Op) (x : Op) :
    runOps s (ops ++ [x]) = runOp (runOps s ops) x := by
  simp [runOps, List.foldl_append]

/-- After a single Visibility Controller operation, `visible` equals the
value the operation implies. -/
theorem runOp_visible (t : WindowState) (x : Op) :
    (runOp t x).visible = impliedVisible x := by
  cases x <;> rfl

/-- Once the once-guard has fired, further `startup` calls leave the
process state unchanged. -/
theorem runStartups_done (regs : List RegResult) (st : ProcState)
    (h : st.onceDone = true) : runStartups regs st = st := by
  induction regs with
  | nil => rfl
  | cons r rs ih =>
      show runStartups rs (startup r st) = st
      simp only [startup, h, if_true]
      exact ih

/-! ## Claim theorems -/

/-- C1: for every prior window state, `onHotkey` (one hotkey key-down
notification, relayed through the `"show-overlay"` event to the frontend
handler) performs exactly the `ShowOverlay` calls and always leaves
`visible = true`; it never toggles visibility off. -/
theorem onHotkey_is_show :
    onHotkey = ShowOverlay ∧
    ∀ s : WindowState, (runCalls s onHotkey).visible = true := by
  refine ⟨rfl, fun s => rfl⟩

/-- C2: every invocation of `ShowOverlay` performs exactly the collaborator
calls `show`, `center`, `setAlwaysOnTop(true)`, in that order, each exactly
once, and leaves the window in state Visible (`visible = true`). -/
theorem ShowOverlay_spec :
    ShowOverlay = [WindowCall.show, WindowCall.center, WindowCall.setAlwaysOnTop true] ∧
    ∀ s : WindowState, (runCalls s ShowOverlay).visible = true := by
  refine ⟨rfl, fun s => rfl⟩

/-- C3: `HideOverlay` performs exactly the single collaborator call `hide`
and, from every prior state, leaves `visible = false`; `OnWindowBlur` and
the frontend Escape handler are each equivalent to `HideOverlay`. -/
theorem HideOverlay_spec :
    HideOverlay = [WindowCall.hide] ∧
    OnWindowBlur = HideOverlay ∧
    handleEscape "Escape" = HideOverlay ∧
    ∀ s : WindowState, (runCalls s HideOverlay).visible = false := by
  refine ⟨rfl, rfl, by simp [handleEscape], fun s => rfl⟩

/-- C4: for every nonempty sequence of `show()`/`hide()` operations from any
state, `visible` afterwards equals the value implied by the last operation,
and both operations are idempotent on the observable window state. -/
theorem visible_eq_last_call (ops : List Op) (op : Op) (s : WindowState)
    (h : ops.getLast? = some op) :
    (runOps s ops).visible = impliedVisible op ∧
    ∀ (t : WindowState) (x : Op), runOp (runOp t x) x = runOp t x := by
  constructor
  · induction ops using List.reverseRecOn generalizing op with
    | nil => simp at h
    | append_singleton ops x ih =>
        rw [List.getLast?_append_cons] at h
        simp at h
        subst h
        rw [runOps_append_single]
        exact runOp_visible _ _
  · intro t x
    cases x <;> rfl

/-- Witness for C4 at a concrete input: the sequence `[show, hide]` from a
visible state ends with `visible = impliedVisible hide = false`. -/
theorem visible_eq_last_call_witness :
    (runOps ⟨true, false, false⟩ [Op.show, Op.hide]).visible = impliedVisible Op.hide ∧
    ∀ (t : WindowState) (x : Op), runOp (runOp t x) x = runOp t x :=
  visible_eq_last_call [Op.show, Op.hide] Op.hide ⟨true, false, false⟩ (by decide)

/-- C5: when registration fails (`HotkeyUnavailable`), `startup` returns
(it is a total function) with no hotkey handle retained and no goroutines
started, and `ShowOverlay` / `HideOverlay` still behave exactly as
specified from every window state. -/
theorem startup_failure_graceful :
    (startup RegResult.hotkeyUnavailable initProcState).hkRetained = false ∧
    (startup RegResult.hotkeyUnavailable initProcState).goroutines = 0 ∧
    (∀ s : WindowState, runCalls s ShowOverlay =
      { visible := true, centered := true, alwaysOnTop := true }) ∧
    (∀ s : WindowState, runCalls s HideOverlay = { s with visible := false }) := by
  refine ⟨rfl, rfl, fun s => rfl, fun s => rfl⟩

/-- C6: after `unregister()` (invoked by `Cleanup` whenever a handle is
retained), no further hotkey notification reaches the consumer — the
delivered sequence is exactly the finite pre-unregister prefix, whatever
happens afterwards — and the consumer loop terminates, having emitted one
`"show-overlay"` event per delivered notification. -/
theorem unregister_terminates_sequence (pre post : List Unit) (u : UnregResult) :
    consumerEmits (deliveredNotifications pre post) =
      pre.map (fun _ => "show-overlay") ∧
    (consumerEmits (deliveredNotifications pre post)).length = pre.length ∧
    (Cleanup true u).2 = 1 := by
  refine ⟨rfl, by simp [consumerEmits, deliveredNotifications, keydownGoroutine],
    by cases u <;> rfl⟩

/-- C7 counterexample: two rapid hotkey notifications do NOT coalesce into
at most one `show()` cycle — the relay channel is never sent on, each
notification is relayed via the `"show-overlay"` event, and two
notifications produce two full `ShowOverlay` cycles. -/
theorem two_keydowns_two_cycles :
    hotkeyEventsSends = [] ∧
    showCyclesFromKeydowns [(), ()] = [ShowOverlay, ShowOverlay] ∧
    ¬ (showCyclesFromKeydowns [(), ()]).length ≤ 1 := by
  refine ⟨rfl, rfl, by decide⟩

/-- C7 amended: the hotkey-to-UI hand-off bypasses the capacity-1
`hotkeyEvents` relay (nothing is ever sent on it); every hotkey
notification triggers one full `ShowOverlay` cycle, with no coalescing —
but because `show()` is idempotent, a second back-to-back cycle leaves the
observable window state exactly as one cycle does. -/
theorem hotkey_pipeline_not_coalesced (keydowns : List Unit) :
    hotkeyEventsSends = [] ∧
    hotkeyEventsCapacity = 1 ∧
    showCyclesFromKeydowns keydowns = keydowns.map (fun _ => ShowOverlay) ∧
    ∀ s : WindowState, runCalls s (ShowOverlay ++ ShowOverlay) = runCalls s ShowOverlay := by
  refine ⟨rfl, rfl, ?_, fun s => rfl⟩
  simp only [showCyclesFromKeydowns, keydownGoroutine, List.map_map]
  exact List.map_congr_left fun _ _ => rfl

/-- C8: no value is ever sent on the `hotkeyEvents` channel, so the
event-handler goroutine consuming it performs no `ShowOverlay` invocation;
every hotkey key-down is instead relayed via one `"show-overlay"` emit. -/
theorem hotkeyEvents_never_sent (keydowns : List Unit) :
    hotkeyEventsSends = [] ∧
    eventHandlerGoroutine hotkeyEventsSends = [] ∧
    keydownGoroutine keydowns = keydowns.map (fun _ => "show-overlay") := by
  refine ⟨rfl, rfl, rfl⟩

/-- C9: across any sequence of `startup` calls from process start, the
once-guard lets the registration closure run at most once: at most one
`Register` call is ever made and at most the two background goroutines are
ever created. -/
theorem startup_at_most_once (regs : List RegResult) :
    (runStartups regs initProcState).registerCalls ≤ 1 ∧
    (runStartups regs initProcState).goroutines ≤ 2 := by
  cases regs with
  | nil => exact ⟨by decide, by decide⟩
  | cons r rs =>
      have h : (startup r initProcState).onceDone = true := by
        cases r <;> rfl
      show (runStartups rs (startup r initProcState)).registerCalls ≤ 1 ∧
        (runStartups rs (startup r initProcState)).goroutines ≤ 2
      rw [runStartups_done rs _ h]
      cases r <;> exact ⟨by decide, by decide⟩

/-- C10: `Cleanup` is total (never panics), always returns `false`
(allowing the app to close), performs an `Unregister` call exactly when a
handle is retained, and its result is independent of any error
`Unregister` reports (the error is discarded). -/
theorem Cleanup_spec (hk : Bool) (u : UnregResult) :
    (Cleanup hk u).1 = false ∧
    (Cleanup hk u).2 = (if hk then 1 else 0) ∧
    ∀ u' : UnregResult, Cleanup hk u = Cleanup hk u' := by
  cases hk <;> exact ⟨rfl, rfl, fun u' => by cases u' <;> rfl⟩

end Overlae
